import Mathlib

/-!
Verification of the generator transform pass
(`src/codegeneration/GeneratorTransformPass.js`).

This file gives a shallow embedding of the parse-tree fragment that the
pass manipulates, of the suspend-factoring rewriter
(`YieldExpressionTransformer`) and of the driver (`GeneratorTransformPass`),
and proves or refutes the specification claims about them.

External collaborators (the for-in lowering pass and the two state-machine
builders) are passed in as an explicit record of functions; the driver
additionally reports, as a trace, which external passes it invoked on the
body it was given (invocations on nested function bodies are their own
driver invocations and do not appear in an outer trace).
-/

namespace GeneratorTransform

/-- Declaration kind of a variable statement (var / let / const). -/
inductive DeclarationType where
  | varDecl
  | letDecl
  | constDecl
deriving DecidableEq

/-- Expressions of the modeled parse-tree fragment.  Operators are carried
as strings; the string "=" plays the role of the EQUAL token. -/
inductive Expression where
  | identifier (name : String)
  | literal (value : Nat)
  | paren (expression : Expression)
  | comma (expressions : List Expression)
  | binaryOperator (left : Expression) (op : String) (right : Expression)
  | yieldExpr (operand : Expression) (isYieldFor : Bool)
  | member (operand : Expression) (memberName : String)

mutual
def decEqExpr : (a b : Expression) → Decidable (a = b)
  | .identifier a₁, .identifier a₂ =>
    match inferInstanceAs (Decidable (a₁ = a₂)) with
    | isTrue h1 => isTrue (by rw [h1])
    | isFalse h1 => isFalse (by intro hh; injection hh; contradiction)
  | .literal a₁, .literal a₂ =>
    match inferInstanceAs (Decidable (a₁ = a₂)) with
    | isTrue h1 => isTrue (by rw [h1])
    | isFalse h1 => isFalse (by intro hh; injection hh; contradiction)
  | .paren a₁, .paren a₂ =>
    match decEqExpr a₁ a₂ with
    | isTrue h1 => isTrue (by rw [h1])
    | isFalse h1 => isFalse (by intro hh; injection hh; contradiction)
  | .comma a₁, .comma a₂ =>
    match decEqExprList a₁ a₂ with
    | isTrue h1 => isTrue (by rw [h1])
    | isFalse h1 => isFalse (by intro hh; injection hh; contradiction)
  | .binaryOperator l₁ o₁ r₁, .binaryOperator l₂ o₂ r₂ =>
    match decEqExpr l₁ l₂, inferInstanceAs (Decidable (o₁ = o₂)), decEqExpr r₁ r₂ with
    | isTrue h1, isTrue h2, isTrue h3 => isTrue (by rw [h1, h2, h3])
    | isFalse h1, _, _ => isFalse (by intro hh; injection hh; contradiction)
    | _, isFalse h2, _ => isFalse (by intro hh; injection hh; contradiction)
    | _, _, isFalse h3 => isFalse (by intro hh; injection hh; contradiction)
  | .yieldExpr e₁ f₁, .yieldExpr e₂ f₂ =>
    match decEqExpr e₁ e₂, inferInstanceAs (Decidable (f₁ = f₂)) with
    | isTrue h1, isTrue h2 => isTrue (by rw [h1, h2])
    | isFalse h1, _ => isFalse (by intro hh; injection hh; contradiction)
    | _, isFalse h2 => isFalse (by intro hh; injection hh; contradiction)
  | .member e₁ n₁, .member e₂ n₂ =>
    match decEqExpr e₁ e₂, inferInstanceAs (Decidable (n₁ = n₂)) with
    | isTrue h1, isTrue h2 => isTrue (by rw [h1, h2])
    | isFalse h1, _ => isFalse (by intro hh; injection hh; contradiction)
    | _, isFalse h2 => isFalse (by intro hh; injection hh; contradiction)
  | .identifier _, .literal _ => isFalse (fun h => Expression.noConfusion h)
  | .identifier _, .paren _ => isFalse (fun h => Expression.noConfusion h)
  | .identifier _, .comma _ => isFalse (fun h => Expression.noConfusion h)
  | .identifier _, .binaryOperator _ _ _ => isFalse (fun h => Expression.noConfusion h)
  | .identifier _, .yieldExpr _ _ => isFalse (fun h => Expression.noConfusion h)
  | .identifier _, .member _ _ => isFalse (fun h => Expression.noConfusion h)
  | .literal _, .identifier _ => isFalse (fun h => Expression.noConfusion h)
  | .literal _, .paren _ => isFalse (fun h => Expression.noConfusion h)
  | .literal _, .comma _ => isFalse (fun h => Expression.noConfusion h)
  | .literal _, .binaryOperator _ _ _ => isFalse (fun h => Expression.noConfusion h)
  | .literal _, .yieldExpr _ _ => isFalse (fun h => Expression.noConfusion h)
  | .literal _, .member _ _ => isFalse (fun h => Expression.noConfusion h)
  | .paren _, .identifier _ => isFalse (fun h => Expression.noConfusion h)
  | .paren _, .literal _ => isFalse (fun h => Expression.noConfusion h)
  | .paren _, .comma _ => isFalse (fun h => Expression.noConfusion h)
  | .paren _, .binaryOperator _ _ _ => isFalse (fun h => Expression.noConfusion h)
  | .paren _, .yieldExpr _ _ => isFalse (fun h => Expression.noConfusion h)
  | .paren _, .member _ _ => isFalse (fun h => Expression.noConfusion h)
  | .comma _, .identifier _ => isFalse (fun h => Expression.noConfusion h)
  | .comma _, .literal _ => isFalse (fun h => Expression.noConfusion h)
  | .comma _, .paren _ => isFalse (fun h => Expression.noConfusion h)
  | .comma _, .binaryOperator _ _ _ => isFalse (fun h => Expression.noConfusion h)
  | .comma _, .yieldExpr _ _ => isFalse (fun h => Expression.noConfusion h)
  | .comma _, .member _ _ => isFalse (fun h => Expression.noConfusion h)
  | .binaryOperator _ _ _, .identifier _ => isFalse (fun h => Expression.noConfusion h)
  | .binaryOperator _ _ _, .literal _ => isFalse (fun h => Expression.noConfusion h)
  | .binaryOperator _ _ _, .paren _ => isFalse (fun h => Expression.noConfusion h)
  | .binaryOperator _ _ _, .comma _ => isFalse (fun h => Expression.noConfusion h)
  | .binaryOperator _ _ _, .yieldExpr _ _ => isFalse (fun h => Expression.noConfusion h)
  | .binaryOperator _ _ _, .member _ _ => isFalse (fun h => Expression.noConfusion h)
  | .yieldExpr _ _, .identifier _ => isFalse (fun h => Expression.noConfusion h)
  | .yieldExpr _ _, .literal _ => isFalse (fun h => Expression.noConfusion h)
  | .yieldExpr _ _, .paren _ => isFalse (fun h => Expression.noConfusion h)
  | .yieldExpr _ _, .comma _ => isFalse (fun h => Expression.noConfusion h)
  | .yieldExpr _ _, .binaryOperator _ _ _ => isFalse (fun h => Expression.noConfusion h)
  | .yieldExpr _ _, .member _ _ => isFalse (fun h => Expression.noConfusion h)
  | .member _ _, .identifier _ => isFalse (fun h => Expression.noConfusion h)
  | .member _ _, .literal _ => isFalse (fun h => Expression.noConfusion h)
  | .member _ _, .paren _ => isFalse (fun h => Expression.noConfusion h)
  | .member _ _, .comma _ => isFalse (fun h => Expression.noConfusion h)
  | .member _ _, .binaryOperator _ _ _ => isFalse (fun h => Expression.noConfusion h)
  | .member _ _, .yieldExpr _ _ => isFalse (fun h => Expression.noConfusion h)
def decEqExprList : (a b : List Expression) → Decidable (a = b)
  | [], [] => isTrue rfl
  | x :: xs, y :: ys =>
    match decEqExpr x y, decEqExprList xs ys with
    | isTrue h1, isTrue h2 => isTrue (by rw [h1, h2])
    | isFalse h1, _ => isFalse (by intro hh; injection hh; contradiction)
    | _, isFalse h2 => isFalse (by intro hh; injection hh; contradiction)
  | [], _ :: _ => isFalse (fun h => List.noConfusion h)
  | _ :: _, [] => isFalse (fun h => List.noConfusion h)
end

instance : DecidableEq Expression := decEqExpr

/-- A variable declarator: left-hand value and optional initialiser. -/
structure VariableDeclaration where
  lvalue : Expression
  initialiser : Option Expression
deriving DecidableEq

mutual
/-- Statements of the modeled fragment. -/
inductive Statement where
  | expressionStatement (expression : Expression)
  | variableStatement (declarationType : DeclarationType)
      (declarations : List VariableDeclaration)
  | returnStatement (expression : Option Expression)
  | block (statements : List Statement)
  | forInStatement (initialiser : Expression) (collection : Expression)
      (body : Statement)
  | awaitStatement (identifierName : String) (expression : Expression)
  | functionDeclaration (fn : FunctionNode)
  | emptyStatement

/-- A function-bearing node: the common shape of FunctionDeclaration and
FunctionExpression (location, name, isGenerator, formalParameterList,
typeAnnotation, annotations, functionBody — in constructor-argument order). -/
inductive FunctionNode where
  | mk (location : Option Nat) (name : Option String) (isGenerator : Bool)
      (formalParameterList : List String) (typeAnnot : Option String)
      (annotationList : List String) (functionBody : List Statement)
end

mutual
def decEqStmt : (a b : Statement) → Decidable (a = b)
  | .expressionStatement e₁, .expressionStatement e₂ =>
    match inferInstanceAs (Decidable (e₁ = e₂)) with
    | isTrue h1 => isTrue (by rw [h1])
    | isFalse h1 => isFalse (by intro hh; injection hh; contradiction)
  | .variableStatement dt₁ ds₁, .variableStatement dt₂ ds₂ =>
    match inferInstanceAs (Decidable (dt₁ = dt₂)), inferInstanceAs (Decidable (ds₁ = ds₂)) with
    | isTrue h1, isTrue h2 => isTrue (by rw [h1, h2])
    | isFalse h1, _ => isFalse (by intro hh; injection hh; contradiction)
    | _, isFalse h2 => isFalse (by intro hh; injection hh; contradiction)
  | .returnStatement e₁, .returnStatement e₂ =>
    match inferInstanceAs (Decidable (e₁ = e₂)) with
    | isTrue h1 => isTrue (by rw [h1])
    | isFalse h1 => isFalse (by intro hh; injection hh; contradiction)
  | .block ss₁, .block ss₂ =>
    match decEqStmtList ss₁ ss₂ with
    | isTrue h1 => isTrue (by rw [h1])
    | isFalse h1 => isFalse (by intro hh; injection hh; contradiction)
  | .forInStatement i₁ c₁ b₁, .forInStatement i₂ c₂ b₂ =>
    match inferInstanceAs (Decidable (i₁ = i₂)), inferInstanceAs (Decidable (c₁ = c₂)), decEqStmt b₁ b₂ with
    | isTrue h1, isTrue h2, isTrue h3 => isTrue (by rw [h1, h2, h3])
    | isFalse h1, _, _ => isFalse (by intro hh; injection hh; contradiction)
    | _, isFalse h2, _ => isFalse (by intro hh; injection hh; contradiction)
    | _, _, isFalse h3 => isFalse (by intro hh; injection hh; contradiction)
  | .awaitStatement n₁ e₁, .awaitStatement n₂ e₂ =>
    match inferInstanceAs (Decidable (n₁ = n₂)), inferInstanceAs (Decidable (e₁ = e₂)) with
    | isTrue h1, isTrue h2 => isTrue (by rw [h1, h2])
    | isFalse h1, _ => isFalse (by intro hh; injection hh; contradiction)
    | _, isFalse h2 => isFalse (by intro hh; injection hh; contradiction)
  | .functionDeclaration fn₁, .functionDeclaration fn₂ =>
    match decEqFn fn₁ fn₂ with
    | isTrue h1 => isTrue (by rw [h1])
    | isFalse h1 => isFalse (by intro hh; injection hh; contradiction)
  | .emptyStatement, .emptyStatement => isTrue rfl
  | .expressionStatement _, .variableStatement _ _ => isFalse (fun h => Statement.noConfusion h)
  | .expressionStatement _, .returnStatement _ => isFalse (fun h => Statement.noConfusion h)
  | .expressionStatement _, .block _ => isFalse (fun h => Statement.noConfusion h)
  | .expressionStatement _, .forInStatement _ _ _ => isFalse (fun h => Statement.noConfusion h)
  | .expressionStatement _, .awaitStatement _ _ => isFalse (fun h => Statement.noConfusion h)
  | .expressionStatement _, .functionDeclaration _ => isFalse (fun h => Statement.noConfusion h)
  | .expressionStatement _, .emptyStatement => isFalse (fun h => Statement.noConfusion h)
  | .variableStatement _ _, .expressionStatement _ => isFalse (fun h => Statement.noConfusion h)
  | .variableStatement _ _, .returnStatement _ => isFalse (fun h => Statement.noConfusion h)
  | .variableStatement _ _, .block _ => isFalse (fun h => Statement.noConfusion h)
  | .variableStatement _ _, .forInStatement _ _ _ => isFalse (fun h => Statement.noConfusion h)
  | .variableStatement _ _, .awaitStatement _ _ => isFalse (fun h => Statement.noConfusion h)
  | .variableStatement _ _, .functionDeclaration _ => isFalse (fun h => Statement.noConfusion h)
  | .variableStatement _ _, .emptyStatement => isFalse (fun h => Statement.noConfusion h)
  | .returnStatement _, .expressionStatement _ => isFalse (fun h => Statement.noConfusion h)
  | .returnStatement _, .variableStatement _ _ => isFalse (fun h => Statement.noConfusion h)
  | .returnStatement _, .block _ => isFalse (fun h => Statement.noConfusion h)
  | .returnStatement _, .forInStatement _ _ _ => isFalse (fun h => Statement.noConfusion h)
  | .returnStatement _, .awaitStatement _ _ => isFalse (fun h => Statement.noConfusion h)
  | .returnStatement _, .functionDeclaration _ => isFalse (fun h => Statement.noConfusion h)
  | .returnStatement _, .emptyStatement => isFalse (fun h => Statement.noConfusion h)
  | .block _, .expressionStatement _ => isFalse (fun h => Statement.noConfusion h)
  | .block _, .variableStatement _ _ => isFalse (fun h => Statement.noConfusion h)
  | .block _, .returnStatement _ => isFalse (fun h => Statement.noConfusion h)
  | .block _, .forInStatement _ _ _ => isFalse (fun h => Statement.noConfusion h)
  | .block _, .awaitStatement _ _ => isFalse (fun h => Statement.noConfusion h)
  | .block _, .functionDeclaration _ => isFalse (fun h => Statement.noConfusion h)
  | .block _, .emptyStatement => isFalse (fun h => Statement.noConfusion h)
  | .forInStatement _ _ _, .expressionStatement _ => isFalse (fun h => Statement.noConfusion h)
  | .forInStatement _ _ _, .variableStatement _ _ => isFalse (fun h => Statement.noConfusion h)
  | .forInStatement _ _ _, .returnStatement _ => isFalse (fun h => Statement.noConfusion h)
  | .forInStatement _ _ _, .block _ => isFalse (fun h => Statement.noConfusion h)
  | .forInStatement _ _ _, .awaitStatement _ _ => isFalse (fun h => Statement.noConfusion h)
  | .forInStatement _ _ _, .functionDeclaration _ => isFalse (fun h => Statement.noConfusion h)
  | .forInStatement _ _ _, .emptyStatement => isFalse (fun h => Statement.noConfusion h)
  | .awaitStatement _ _, .expressionStatement _ => isFalse (fun h => Statement.noConfusion h)
  | .awaitStatement _ _, .variableStatement _ _ => isFalse (fun h => Statement.noConfusion h)
  | .awaitStatement _ _, .returnStatement _ => isFalse (fun h => Statement.noConfusion h)
  | .awaitStatement _ _, .block _ => isFalse (fun h => Statement.noConfusion h)
  | .awaitStatement _ _, .forInStatement _ _ _ => isFalse (fun h => Statement.noConfusion h)
  | .awaitStatement _ _, .functionDeclaration _ => isFalse (fun h => Statement.noConfusion h)
  | .awaitStatement _ _, .emptyStatement => isFalse (fun h => Statement.noConfusion h)
  | .functionDeclaration _, .expressionStatement _ => isFalse (fun h => Statement.noConfusion h)
  | .functionDeclaration _, .variableStatement _ _ => isFalse (fun h => Statement.noConfusion h)
  | .functionDeclaration _, .returnStatement _ => isFalse (fun h => Statement.noConfusion h)
  | .functionDeclaration _, .block _ => isFalse (fun h => Statement.noConfusion h)
  | .functionDeclaration _, .forInStatement _ _ _ => isFalse (fun h => Statement.noConfusion h)
  | .functionDeclaration _, .awaitStatement _ _ => isFalse (fun h => Statement.noConfusion h)
  | .functionDeclaration _, .emptyStatement => isFalse (fun h => Statement.noConfusion h)
  | .emptyStatement, .expressionStatement _ => isFalse (fun h => Statement.noConfusion h)
  | .emptyStatement, .variableStatement _ _ => isFalse (fun h => Statement.noConfusion h)
  | .emptyStatement, .returnStatement _ => isFalse (fun h => Statement.noConfusion h)
  | .emptyStatement, .block _ => isFalse (fun h => Statement.noConfusion h)
  | .emptyStatement, .forInStatement _ _ _ => isFalse (fun h => Statement.noConfusion h)
  | .emptyStatement, .awaitStatement _ _ => isFalse (fun h => Statement.noConfusion h)
  | .emptyStatement, .functionDeclaration _ => isFalse (fun h => Statement.noConfusion h)
def decEqFn : (a b : FunctionNode) → Decidable (a = b)
  | .mk l₁ n₁ g₁ p₁ t₁ a₁ b₁, .mk l₂ n₂ g₂ p₂ t₂ a₂ b₂ =>
    match inferInstanceAs (Decidable (l₁ = l₂)), inferInstanceAs (Decidable (n₁ = n₂)), inferInstanceAs (Decidable (g₁ = g₂)), inferInstanceAs (Decidable (p₁ = p₂)), inferInstanceAs (Decidable (t₁ = t₂)), inferInstanceAs (Decidable (a₁ = a₂)), decEqStmtList b₁ b₂ with
    | isTrue h1, isTrue h2, isTrue h3, isTrue h4, isTrue h5, isTrue h6, isTrue h7 => isTrue (by rw [h1, h2, h3, h4, h5, h6, h7])
    | isFalse h1, _, _, _, _, _, _ => isFalse (by intro hh; injection hh; contradiction)
    | _, isFalse h2, _, _, _, _, _ => isFalse (by intro hh; injection hh; contradiction)
    | _, _, isFalse h3, _, _, _, _ => isFalse (by intro hh; injection hh; contradiction)
    | _, _, _, isFalse h4, _, _, _ => isFalse (by intro hh; injection hh; contradiction)
    | _, _, _, _, isFalse h5, _, _ => isFalse (by intro hh; injection hh; contradiction)
    | _, _, _, _, _, isFalse h6, _ => isFalse (by intro hh; injection hh; contradiction)
    | _, _, _, _, _, _, isFalse h7 => isFalse (by intro hh; injection hh; contradiction)
def decEqStmtList : (a b : List Statement) → Decidable (a = b)
  | [], [] => isTrue rfl
  | x :: xs, y :: ys =>
    match decEqStmt x y, decEqStmtList xs ys with
    | isTrue h1, isTrue h2 => isTrue (by rw [h1, h2])
    | isFalse h1, _ => isFalse (by intro hh; injection hh; contradiction)
    | _, isFalse h2 => isFalse (by intro hh; injection hh; contradiction)
  | [], _ :: _ => isFalse (fun h => List.noConfusion h)
  | _ :: _, [] => isFalse (fun h => List.noConfusion h)
end

instance : DecidableEq Statement := decEqStmt

instance : DecidableEq FunctionNode := decEqFn

def FunctionNode.location : FunctionNode → Option Nat
  | .mk l _ _ _ _ _ _ => l

def FunctionNode.name : FunctionNode → Option String
  | .mk _ n _ _ _ _ _ => n

def FunctionNode.isGenerator : FunctionNode → Bool
  | .mk _ _ g _ _ _ _ => g

def FunctionNode.formalParameterList : FunctionNode → List String
  | .mk _ _ _ p _ _ _ => p

def FunctionNode.typeAnnot : FunctionNode → Option String
  | .mk _ _ _ _ t _ _ => t

def FunctionNode.annotationList : FunctionNode → List String
  | .mk _ _ _ _ _ a _ => a

def FunctionNode.functionBody : FunctionNode → List Statement
  | .mk _ _ _ _ _ _ b => b

/-! ## Suspend-presence analyzer -/

/-- Suspend-presence descriptor: the three booleans the analyzer reports. -/
structure Finder where
  hasYield : Bool
  hasAwait : Bool
  hasForIn : Bool
deriving DecidableEq

def Finder.empty : Finder := Finder.mk false false false

/-- Pointwise disjunction of two descriptors. -/
def Finder.or (a b : Finder) : Finder :=
  Finder.mk (a.hasYield || b.hasYield) (a.hasAwait || b.hasAwait)
    (a.hasForIn || b.hasForIn)

/-- Turn on the hasYield flag of a descriptor. -/
def Finder.withYield (a : Finder) : Finder :=
  Finder.mk true a.hasAwait a.hasForIn

/-- Turn on the hasAwait flag of a descriptor. -/
def Finder.withAwait (a : Finder) : Finder :=
  Finder.mk a.hasYield true a.hasForIn

/-- Turn on the hasForIn flag of a descriptor. -/
def Finder.withForIn (a : Finder) : Finder :=
  Finder.mk a.hasYield a.hasAwait true

mutual
/-- Modelled from the spec: expression part of the suspend-presence
analyzer (`YieldFinder`, whose source is not under `src/`): a pure single
pass reporting yield expressions found in an expression. -/
def scanExpr : Expression → Finder
  | .identifier _ => Finder.empty
  | .literal _ => Finder.empty
  | .paren e => scanExpr e
  | .comma es => scanExprs es
  | .binaryOperator l _ r => (scanExpr l).or (scanExpr r)
  | .yieldExpr e _ => (scanExpr e).withYield
  | .member e _ => scanExpr e

def scanExprs : List Expression → Finder
  | [] => Finder.empty
  | e :: es => (scanExpr e).or (scanExprs es)
end

/-- Modelled from the spec: analyzer helper for an optional expression. -/
def scanOptExpr : Option Expression → Finder
  | none => Finder.empty
  | some e => scanExpr e

mutual
/-- Modelled from the spec: statement part of the suspend-presence
analyzer (`YieldFinder`, whose source is not under `src/`): reports
whether the statement contains a direct suspend (yield expression), an
await suspend (await statement), or a for-in loop.  Per the spec, nested
function bodies are not scanned (nested-function isolation: a suspend
in a nested function belongs to that function, not to this body). -/
def scanStmt : Statement → Finder
  | .expressionStatement e => scanExpr e
  | .variableStatement _ ds => scanDecls ds
  | .returnStatement oe => scanOptExpr oe
  | .block ss => scanStmts ss
  | .forInStatement i c b =>
      (((scanExpr i).or (scanExpr c)).or (scanStmt b)).withForIn
  | .awaitStatement _ e => (scanExpr e).withAwait
  | .functionDeclaration _ => Finder.empty
  | .emptyStatement => Finder.empty

def scanStmts : List Statement → Finder
  | [] => Finder.empty
  | s :: ss => (scanStmt s).or (scanStmts ss)

def scanDecls : List VariableDeclaration → Finder
  | [] => Finder.empty
  | d :: ds => (scanOptExpr d.initialiser).or (scanDecls ds)
end

/-- Modelled from the spec: the suspend-presence analyzer applied to a
function body (`new YieldFinder(tree)` in the source). -/
def yieldFinder (tree : List Statement) : Finder := scanStmts tree

/-! ## Suspend-factoring rewriter (`YieldExpressionTransformer`) -/

/-- `while (e.type === PAREN_EXPRESSION) e = e.expression;` -/
def stripParens : Expression → Expression
  | .paren e => stripParens e
  | e => e

/-- `e.type === YIELD_EXPRESSION` -/
def isYieldExpression : Expression → Bool
  | .yieldExpr _ _ => true
  | _ => false

/-- Modelled from the spec: `isYieldAssign` (imported from
`generator/isYieldAssign`, whose source is not under `src/`): the
expression is an assignment `L = S` whose right-hand side is a suspend
expression.  The caller additionally checks
`ex[0].type === BINARY_OPERATOR`; that check is folded in here. -/
def isYieldAssign : Expression → Bool
  | .binaryOperator _ op r => op == "=" && isYieldExpression r
  | _ => false

/-- `tree.initialiser && tree.initialiser.type === YIELD_EXPRESSION` -/
def isYieldVarAssign (d : VariableDeclaration) : Bool :=
  match d.initialiser with
  | some e => isYieldExpression e
  | none => false

/-- `createMemberExpression($ctx, sent)`: the resumed-value slot. -/
def ctxSent : Expression := .member (.identifier "$ctx") "sent"

/-- `factor_`: factor a nested yield expression into a simple yield
statement and a wrapped `$ctx.sent` statement. -/
def factor_ (expression : Expression) (wrap : Expression → Statement) :
    Statement :=
  .block [.expressionStatement expression, wrap ctxSent]

/-- `factorAssign_`: factor a simple yield assignment into a simple yield
statement and a wrapped `$ctx.sent` assignment. -/
def factorAssign_ (lhs rhs : Expression)
    (wrap : Expression → Expression → Statement) : Statement :=
  factor_ rhs (fun ident => wrap lhs ident)

/-- `YieldExpressionTransformer.transformExpressionStatement`.  Parens are
stripped from the outermost expression; the switch handles only
`COMMA_EXPRESSION` whose first element is a yield assignment (the
`commaWrap` closure rebuilds the comma with `ex.slice(1)` kept). -/
def yetTransformExpressionStatement (tree : Statement) : Statement :=
  match tree with
  | .expressionStatement e0 =>
    match stripParens e0 with
    | .comma (Expression.binaryOperator lhs op rhs :: exRest) =>
        if isYieldAssign (.binaryOperator lhs op rhs) then
          factorAssign_ lhs rhs (fun l ident =>
            .expressionStatement
              (.comma (Expression.binaryOperator l "=" ident :: exRest)))
        else tree
    | _ => tree
  | _ => tree

/-- `YieldExpressionTransformer.transformVariableStatement`.  Only the
first declarator is inspected; `varWrap` rebuilds the list with the same
declaration kind and `tdd.slice(1)` kept. -/
def yetTransformVariableStatement (tree : Statement) : Statement :=
  match tree with
  | .variableStatement dt (d0 :: rest) =>
      if isYieldVarAssign d0 then
        match d0.initialiser with
        | some init =>
            factorAssign_ d0.lvalue init (fun lhs ident =>
              .variableStatement dt
                (VariableDeclaration.mk lhs (some ident) :: rest))
        | none => tree
      else tree
  | _ => tree

/-- `YieldExpressionTransformer.transformReturnStatement`. -/
def yetTransformReturnStatement (tree : Statement) : Statement :=
  match tree with
  | .returnStatement (some e) =>
      if isYieldExpression e then
        factor_ e (fun ident => .returnStatement (some ident))
      else tree
  | _ => tree

mutual
/-- The recursive tree walk of `YieldExpressionTransformer.transformAny`:
the three overridden statement forms are handled by the methods above
(which do not recurse further), all other statements get the generic
child-rewriting traversal of the base transformer. -/
def yetTransformStatement (s : Statement) : Statement :=
  match s with
  | .expressionStatement e =>
      yetTransformExpressionStatement (.expressionStatement e)
  | .variableStatement dt ds =>
      yetTransformVariableStatement (.variableStatement dt ds)
  | .returnStatement oe => yetTransformReturnStatement (.returnStatement oe)
  | .block ss => .block (yetTransformStatements ss)
  | .forInStatement i c b => .forInStatement i c (yetTransformStatement b)
  | .awaitStatement n e => .awaitStatement n e
  | .functionDeclaration (.mk loc nm g ps ty an fb) =>
      .functionDeclaration (.mk loc nm g ps ty an (yetTransformStatements fb))
  | .emptyStatement => .emptyStatement

def yetTransformStatements : List Statement → List Statement
  | [] => []
  | s :: ss => yetTransformStatement s :: yetTransformStatements ss
end

/-! ## Transform driver (`GeneratorTransformPass`) -/

/-- The two configuration flags read by the driver
(`transformOptions.generators`, `transformOptions.deferredFunctions`). -/
structure TransformOptions where
  generators : Bool
  deferredFunctions : Bool

/-- External collaborators consumed by the driver: the for-in lowering
pass (`ForInTransformPass`), the generator state-machine builder
(`GeneratorTransformer.transformGeneratorBody`) and the deferred/async
state-machine builder (`AsyncTransformer.transformAsyncBody`).  Their
sources are not under `src/`; per the spec they are body-to-body
functions, so they are passed in here as an arbitrary record of
functions. -/
structure Externals where
  forInTransformPass : List Statement → List Statement
  transformGeneratorBody : List Statement → List Statement
  transformAsyncBody : List Statement → List Statement

/-- Tags recording which sub-passes a single `transformBody_` invocation
applied to its body, in order. -/
inductive PassTag where
  | forInPass
  | yieldFactor
  | generatorBuild
  | asyncBuild
deriving DecidableEq

mutual
/-- The generic recursive traversal of the base transformer
(`super.transformFunctionBody`), specialised to this pass: nested
function-bearing nodes are handed to `transformFunction_`, other
statements are rebuilt from their rewritten children.  In the modeled
fragment expressions contain no function-bearing nodes, so the generic
expression traversal is the identity and is omitted. -/
def gtpStmt (E : Externals) (opts : TransformOptions) (s : Statement) :
    Statement :=
  match s with
  | .functionDeclaration fn =>
      .functionDeclaration (transformFunction_ E opts fn)
  | .block ss => .block (gtpStmts E opts ss)
  | .forInStatement i c b => .forInStatement i c (gtpStmt E opts b)
  | s => s
termination_by (sizeOf s, 0)

def gtpStmts (E : Externals) (opts : TransformOptions)
    (ss : List Statement) : List Statement :=
  match ss with
  | [] => []
  | s :: rest => gtpStmt E opts s :: gtpStmts E opts rest
termination_by (sizeOf ss, 0)

/-- `GeneratorTransformPass.transformFunction_`: transform the body; if it
is unchanged return the original node, otherwise rebuild the node as
`new constructor(null, tree.name, false, tree.formalParameterList,
tree.typeAnnotation, tree.annotations, body)`.  Both `FunctionDeclaration`
and `FunctionExpression` share this shape, so one function models both
`transformFunctionDeclaration` and `transformFunctionExpression`. -/
def transformFunction_ (E : Externals) (opts : TransformOptions)
    (fn : FunctionNode) : FunctionNode :=
  match fn with
  | .mk loc nm isGen ps ty an fb =>
    let body := (transformBodyAux E opts fb isGen).1
    if body = fb then .mk loc nm isGen ps ty an fb
    else .mk none nm false ps ty an body
termination_by (sizeOf fn, 1)

/-- `GeneratorTransformPass.transformBody_`, with an invocation trace.
The first component is the body the source returns; the second lists
which external sub-passes this invocation applied to this body, in
order (nested function bodies are handled by their own invocations and
contribute nothing to this trace). -/
def transformBodyAux (E : Externals) (opts : TransformOptions)
    (tree : List Statement) (isGenerator : Bool) :
    List Statement × List PassTag :=
  let body := gtpStmts E opts tree
  if isGenerator || opts.deferredFunctions then
    let finder := yieldFinder tree
    if !(finder.hasYield || isGenerator || finder.hasAwait) then (body, [])
    else
      let afterForIn :=
        if finder.hasForIn && (opts.generators || opts.deferredFunctions)
        then (E.forInTransformPass body, [PassTag.forInPass])
        else (body, ([] : List PassTag))
      if finder.hasYield || isGenerator then
        if opts.generators then
          let factored := yetTransformStatements afterForIn.1
          (E.transformGeneratorBody factored,
           afterForIn.2 ++ [PassTag.yieldFactor, PassTag.generatorBuild])
        else afterForIn
      else if opts.deferredFunctions then
        (E.transformAsyncBody afterForIn.1,
         afterForIn.2 ++ [PassTag.asyncBuild])
      else afterForIn
  else (body, [])
termination_by (sizeOf tree, 2)
end

/-- The body returned by `GeneratorTransformPass.transformBody_`. -/
def transformBody_ (E : Externals) (opts : TransformOptions)
    (tree : List Statement) (isGenerator : Bool) : List Statement :=
  (transformBodyAux E opts tree isGenerator).1

/-- A get-accessor node (location, isStatic, name, typeAnnotation,
annotations, body — in constructor-argument order). -/
structure GetAccessor where
  location : Option Nat
  isStatic : Bool
  name : String
  typeAnnot : Option String
  annotationList : List String
  body : List Statement
deriving DecidableEq

/-- A set-accessor node (location, isStatic, name, parameter,
annotations, body — in constructor-argument order). -/
structure SetAccessor where
  location : Option Nat
  isStatic : Bool
  name : String
  parameter : String
  annotationList : List String
  body : List Statement
deriving DecidableEq

/-- `GeneratorTransformPass.transformGetAccessor`: the source calls
`this.transformBody_(tree.body)` with no second argument, so the
generator flag is `undefined`, i.e. false here. -/
def transformGetAccessor (E : Externals) (opts : TransformOptions)
    (tree : GetAccessor) : GetAccessor :=
  let body := transformBody_ E opts tree.body false
  if body = tree.body then tree
  else GetAccessor.mk tree.location tree.isStatic tree.name tree.typeAnnot
    tree.annotationList body

/-- `GeneratorTransformPass.transformSetAccessor`: as for get-accessors,
the generator flag argument is absent, i.e. false. -/
def transformSetAccessor (E : Externals) (opts : TransformOptions)
    (tree : SetAccessor) : SetAccessor :=
  let body := transformBody_ E opts tree.body false
  if body = tree.body then tree
  else SetAccessor.mk tree.location tree.isStatic tree.name tree.parameter
    tree.annotationList body

/-! ## Auxiliary predicates and concrete fixtures used by the claims -/

/-- The three statement shapes the rewriter recognizes: an expression
statement whose parenthesis-stripped expression is a comma expression
whose first element is a yield assignment, a variable statement whose
first declarator has a yield initialiser, and a return statement whose
expression is a yield expression. -/
def matchesShape : Statement → Bool
  | .expressionStatement e =>
      (match stripParens e with
       | .comma (e0 :: _) => isYieldAssign e0
       | _ => false)
  | .variableStatement _ (d :: _) => isYieldVarAssign d
  | .returnStatement (some e) => isYieldExpression e
  | _ => false

mutual
/-- No statement at any depth, including inside nested function bodies,
is or contains a suspend point (yield expression or await statement). -/
def deepNoSuspendStmt : Statement → Bool
  | .expressionStatement e => !(scanExpr e).hasYield
  | .variableStatement _ ds => !(scanDecls ds).hasYield
  | .returnStatement oe => !(scanOptExpr oe).hasYield
  | .block ss => deepNoSuspendStmts ss
  | .forInStatement i c b =>
      !(scanExpr i).hasYield && (!(scanExpr c).hasYield && deepNoSuspendStmt b)
  | .awaitStatement _ _ => false
  | .functionDeclaration (.mk _ _ _ _ _ _ fb) => deepNoSuspendStmts fb
  | .emptyStatement => true

def deepNoSuspendStmts : List Statement → Bool
  | [] => true
  | s :: ss => deepNoSuspendStmt s && deepNoSuspendStmts ss
end

mutual
/-- No function-bearing node at any depth, including inside nested
function bodies, is declared a generator. -/
def deepNoGenStmt : Statement → Bool
  | .block ss => deepNoGenStmts ss
  | .forInStatement _ _ b => deepNoGenStmt b
  | .functionDeclaration (.mk _ _ g _ _ _ fb) => !g && deepNoGenStmts fb
  | _ => true

def deepNoGenStmts : List Statement → Bool
  | [] => true
  | s :: ss => deepNoGenStmt s && deepNoGenStmts ss
end

/-- Concrete external collaborators whose output is visibly different from
their input: each prepends an empty statement to the body it is given.
Used to instantiate the claims at concrete inputs. -/
def extMark : Externals :=
  Externals.mk (fun b => Statement.emptyStatement :: b)
    (fun b => Statement.emptyStatement :: b)
    (fun b => Statement.emptyStatement :: b)

/-- A generator-declared function node with an empty body and every
metadata field populated. -/
def sampleGenFn : FunctionNode :=
  .mk (some 1) (some "f") true ["a"] (some "T") ["A"] []

/-- A non-generator function node whose body contains one nested
generator-declared function with an empty body — so the body contains no
suspend expression anywhere, including in nested functions. -/
def nestedGenFn : FunctionNode :=
  .mk (some 0) (some "f") false [] none []
    [.functionDeclaration (.mk none (some "g") true [] none [] [])]

/-- A non-generator function node with a trivial body and no nested
functions. -/
def plainFn : FunctionNode :=
  .mk (some 3) (some "h") false [] none [] [.emptyStatement]

/-- A get-accessor whose body contains one nested generator-declared
function with an empty body. -/
def sampleGet : GetAccessor :=
  GetAccessor.mk (some 2) false "p" none []
    [.functionDeclaration (.mk none (some "g") true [] none [] [])]

/-- A set-accessor with a trivial body. -/
def sampleSet : SetAccessor :=
  SetAccessor.mk (some 4) true "q" "v" [] [.emptyStatement]

/-- A body consisting of a single for-in loop and nothing else. -/
def forInBody : List Statement :=
  [.forInStatement (.identifier "k") (.identifier "o") .emptyStatement]

/-! ## Claims about the suspend-factoring rewriter -/

/-- C2: the specification says a plain assignment of a suspend expression,
`x = yield e;` standing as an expression statement, is factored into
`{ yield e; x = $ctx.sent; }`.  The code does not do this: the switch in
`transformExpressionStatement` handles only `COMMA_EXPRESSION`, so a
plain `BINARY_OPERATOR` assignment is returned unchanged — although the
comment above the switch and the unused `createAssignmentStatement` /
`EQUAL` imports show a `BINARY_OPERATOR` case was intended.  This theorem
evaluates the code at the failing shape: for every target `L` and operand
`e`, the statement passes through unmodified. -/
theorem c2_plain_assignment_not_factored (L e : Expression) (b : Bool) :
    yetTransformExpressionStatement
      (.expressionStatement (.binaryOperator L "=" (.yieldExpr e b))) =
    .expressionStatement (.binaryOperator L "=" (.yieldExpr e b)) := by
  simp [yetTransformExpressionStatement, stripParens]

/-- C5: for every return statement whose expression is a suspend
expression, the rewriter produces a block of exactly two statements:
first an expression statement whose sole expression is the original
suspend expression, unmodified, then a return statement whose expression
is the resumed-value slot `$ctx.sent`. -/
theorem c5_return_factoring (e : Expression) (isYieldFor : Bool) :
    yetTransformReturnStatement
      (.returnStatement (some (.yieldExpr e isYieldFor))) =
    .block [.expressionStatement (.yieldExpr e isYieldFor),
            .returnStatement (some ctxSent)] ∧
    yetTransformStatement
      (.returnStatement (some (.yieldExpr e isYieldFor))) =
    .block [.expressionStatement (.yieldExpr e isYieldFor),
            .returnStatement (some ctxSent)] := by
  constructor <;>
    simp [yetTransformStatement, yetTransformReturnStatement,
      isYieldExpression, factor_]

/-- C6: for every variable statement whose first declarator has a suspend
initialiser, the output block keeps exactly the input declaration kind
on the rebuilt variable statement, and every declarator after the first
appears unchanged and in its original order. -/
theorem c6_declarator_preservation (dt : DeclarationType) (L e : Expression)
    (isYieldFor : Bool) (rest : List VariableDeclaration) :
    yetTransformVariableStatement
      (.variableStatement dt
        (VariableDeclaration.mk L (some (.yieldExpr e isYieldFor)) :: rest)) =
    .block [.expressionStatement (.yieldExpr e isYieldFor),
            .variableStatement dt
              (VariableDeclaration.mk L (some ctxSent) :: rest)] := by
  simp [yetTransformVariableStatement, isYieldVarAssign, isYieldExpression,
    factorAssign_, factor_]

/-- C7: in one rewriter invocation on a comma-expression statement or a
declarator list, only the first element is inspected: when the first
element is not a suspend assignment the whole statement is returned
unchanged, even if later elements contain suspend expressions; and when
the first element is factored, the remaining elements appear unchanged
and in order after the resumed-value assignment. -/
theorem c7_first_element_only :
    (∀ (dt : DeclarationType) (d : VariableDeclaration)
       (rest : List VariableDeclaration),
      isYieldVarAssign d = false →
      yetTransformVariableStatement (.variableStatement dt (d :: rest)) =
        .variableStatement dt (d :: rest)) ∧
    (∀ (first : Expression) (rest : List Expression),
      isYieldAssign first = false →
      yetTransformExpressionStatement
          (.expressionStatement (.comma (first :: rest))) =
        .expressionStatement (.comma (first :: rest))) ∧
    (∀ (L e : Expression) (b : Bool) (rest : List Expression),
      yetTransformExpressionStatement
        (.expressionStatement
          (.comma (.binaryOperator L "=" (.yieldExpr e b) :: rest))) =
      .block [.expressionStatement (.yieldExpr e b),
        .expressionStatement
          (.comma (.binaryOperator L "=" ctxSent :: rest))]) := by
  refine ⟨?_, ?_, ?_⟩
  · intro dt d rest h
    simp [yetTransformVariableStatement, h]
  · intro first rest h
    cases first <;>
      simp [yetTransformExpressionStatement, stripParens, h]
  · intro L e b rest
    simp [yetTransformExpressionStatement, stripParens, isYieldAssign,
      isYieldExpression, factorAssign_, factor_]

/-- C7 witness: concrete instances with a suspend assignment in second
position of a declarator list and of a comma expression, both returned
unchanged. -/
theorem c7_first_element_only_witness :
    (isYieldVarAssign (VariableDeclaration.mk (.identifier "a") none) = false ∧
     yetTransformVariableStatement
       (.variableStatement .varDecl
         [VariableDeclaration.mk (.identifier "a") none,
          VariableDeclaration.mk (.identifier "x")
            (some (.yieldExpr (.literal 1) false))]) =
       .variableStatement .varDecl
         [VariableDeclaration.mk (.identifier "a") none,
          VariableDeclaration.mk (.identifier "x")
            (some (.yieldExpr (.literal 1) false))]) ∧
    (isYieldAssign (.identifier "a") = false ∧
     yetTransformExpressionStatement
       (.expressionStatement (.comma [.identifier "a",
         .binaryOperator (.identifier "x") "=" (.yieldExpr (.literal 1) false)])) =
       .expressionStatement (.comma [.identifier "a",
         .binaryOperator (.identifier "x") "=" (.yieldExpr (.literal 1) false)])) :=
  ⟨⟨by simp [isYieldVarAssign],
    c7_first_element_only.1 .varDecl
      (VariableDeclaration.mk (.identifier "a") none)
      [VariableDeclaration.mk (.identifier "x")
        (some (.yieldExpr (.literal 1) false))]
      (by simp [isYieldVarAssign])⟩,
   ⟨by simp [isYieldAssign],
    c7_first_element_only.2.1 (.identifier "a")
      [.binaryOperator (.identifier "x") "=" (.yieldExpr (.literal 1) false)]
      (by simp [isYieldAssign])⟩⟩

/-- Helper: an expression statement handler returns any non-matching
statement unchanged. -/
theorem yetExprStmt_nonmatch (s : Statement) (h : matchesShape s = false) :
    yetTransformExpressionStatement s = s := by
  cases s
  case expressionStatement e =>
    simp only [yetTransformExpressionStatement]
    split
    · rename_i lhs op rhs exRest heq
      simp only [matchesShape, heq] at h
      simp [h]
    · rfl
  all_goals rfl

/-- Helper: the variable statement handler returns any non-matching
statement unchanged. -/
theorem yetVarStmt_nonmatch (s : Statement) (h : matchesShape s = false) :
    yetTransformVariableStatement s = s := by
  cases s
  case variableStatement dt ds =>
    cases ds with
    | nil => rfl
    | cons d0 rest =>
        simp only [matchesShape] at h
        simp [yetTransformVariableStatement, h]
  all_goals rfl

/-- Helper: the return statement handler returns any non-matching
statement unchanged. -/
theorem yetReturnStmt_nonmatch (s : Statement) (h : matchesShape s = false) :
    yetTransformReturnStatement s = s := by
  cases s
  case returnStatement oe =>
    cases oe with
    | none => rfl
    | some e =>
        simp only [matchesShape] at h
        simp [yetTransformReturnStatement, h]
  all_goals rfl

/-- C9: for every statement that does not match one of the three
recognized shapes, each of the rewriter shape handlers returns the
identical input; in particular a suspend expression standing alone as a
bare expression statement passes through the full rewriter unchanged. -/
theorem c9_nonmatch_identity :
    (∀ s : Statement, matchesShape s = false →
      yetTransformExpressionStatement s = s ∧
      yetTransformVariableStatement s = s ∧
      yetTransformReturnStatement s = s) ∧
    (∀ (e : Expression) (b : Bool),
      yetTransformStatement (.expressionStatement (.yieldExpr e b)) =
        .expressionStatement (.yieldExpr e b)) := by
  constructor
  · intro s h
    exact ⟨yetExprStmt_nonmatch s h, yetVarStmt_nonmatch s h,
      yetReturnStmt_nonmatch s h⟩
  · intro e b
    simp [yetTransformStatement, yetTransformExpressionStatement, stripParens]

/-- C9 witness: a bare suspend expression statement does not match any of
the three shapes and is returned identically by each handler. -/
theorem c9_nonmatch_identity_witness :
    matchesShape (.expressionStatement (.yieldExpr (.literal 7) false)) = false ∧
    yetTransformExpressionStatement
      (.expressionStatement (.yieldExpr (.literal 7) false)) =
      .expressionStatement (.yieldExpr (.literal 7) false) :=
  ⟨by simp [matchesShape, stripParens],
   (c9_nonmatch_identity.1 (.expressionStatement (.yieldExpr (.literal 7) false))
     (by simp [matchesShape, stripParens])).1⟩

/-! ## Claims about the transform driver -/

mutual
/-- Helper: with deferred-function support disabled and no
generator-declared node anywhere, the driver traversal is the identity
on a statement. -/
theorem gtpStmt_id (E : Externals) (opts : TransformOptions)
    (hd : opts.deferredFunctions = false) :
    (s : Statement) → deepNoGenStmt s = true → gtpStmt E opts s = s
  | .expressionStatement e, _ => by simp [gtpStmt]
  | .variableStatement dt ds, _ => by simp [gtpStmt]
  | .returnStatement oe, _ => by simp [gtpStmt]
  | .block ss, h => by
      simp only [deepNoGenStmt] at h
      simp [gtpStmt, gtpStmts_id E opts hd ss h]
  | .forInStatement i c b, h => by
      simp only [deepNoGenStmt] at h
      simp [gtpStmt, gtpStmt_id E opts hd b h]
  | .awaitStatement n e, _ => by simp [gtpStmt]
  | .functionDeclaration (.mk loc nm g ps ty an fb), h => by
      cases g with
      | true => simp [deepNoGenStmt] at h
      | false =>
          simp only [deepNoGenStmt, Bool.not_false, Bool.true_and] at h
          simp [gtpStmt, transformFunction_, transformBodyAux, hd,
            gtpStmts_id E opts hd fb h]
  | .emptyStatement, _ => by simp [gtpStmt]

/-- Helper: list version of `gtpStmt_id`. -/
theorem gtpStmts_id (E : Externals) (opts : TransformOptions)
    (hd : opts.deferredFunctions = false) :
    (ss : List Statement) → deepNoGenStmts ss = true → gtpStmts E opts ss = ss
  | [], _ => by simp [gtpStmts]
  | s :: rest, h => by
      simp only [deepNoGenStmts, Bool.and_eq_true] at h
      simp [gtpStmts, gtpStmt_id E opts hd s h.1,
        gtpStmts_id E opts hd rest h.2]
end

/-- C1 counterexample: a generator-declared node with an empty body — so
no direct suspend and no await-suspend — with generator support enabled.
The driver does not pass it through: it applies the factoring rewriter
and the generator state-machine builder, and the resulting body differs
from the inner-recursed body. -/
theorem c1_counterexample :
    (yieldFinder ([] : List Statement)).hasYield = false ∧
    (yieldFinder ([] : List Statement)).hasAwait = false ∧
    (transformBodyAux extMark (TransformOptions.mk true false) [] true).2 =
      [PassTag.yieldFactor, PassTag.generatorBuild] ∧
    (transformBodyAux extMark (TransformOptions.mk true false) [] true).1 ≠
      gtpStmts extMark (TransformOptions.mk true false) [] := by
  refine ⟨by simp [yieldFinder, scanStmts, Finder.empty],
    by simp [yieldFinder, scanStmts, Finder.empty], ?_, ?_⟩ <;>
  simp [transformBodyAux, gtpStmts, yieldFinder, scanStmts, Finder.empty,
    yetTransformStatements, extMark]

/-- C1 (amended): a generator-declared node whose body has no direct
suspend and no await-suspend passes through the driver unchanged apart
from the already-applied inner recursion — with no factoring, no for-in
lowering and no builder applied — provided generator support is disabled
and the for-in gate does not fire (no for-in loop present, or
deferred-function support also disabled).  With generator support
enabled such a node is transformed regardless (see the counterexample). -/
theorem c1_generator_no_suspend (E : Externals) (opts : TransformOptions)
    (tree : List Statement)
    (hy : (yieldFinder tree).hasYield = false)
    (ha : (yieldFinder tree).hasAwait = false)
    (hg : opts.generators = false)
    (hf : (yieldFinder tree).hasForIn = false ∨
          opts.deferredFunctions = false) :
    transformBodyAux E opts tree true = (gtpStmts E opts tree, []) := by
  rcases hf with hf | hf <;> simp [transformBodyAux, hy, ha, hg, hf]

/-- C1 witness: concrete instance of the amended claim. -/
theorem c1_generator_no_suspend_witness :
    (yieldFinder [Statement.emptyStatement]).hasYield = false ∧
    (yieldFinder [Statement.emptyStatement]).hasAwait = false ∧
    (TransformOptions.mk false false).generators = false ∧
    transformBodyAux extMark (TransformOptions.mk false false)
        [Statement.emptyStatement] true =
      (gtpStmts extMark (TransformOptions.mk false false)
        [Statement.emptyStatement], []) :=
  ⟨by simp [yieldFinder, scanStmts, scanStmt, Finder.empty, Finder.or],
   by simp [yieldFinder, scanStmts, scanStmt, Finder.empty, Finder.or],
   rfl,
   c1_generator_no_suspend extMark (TransformOptions.mk false false)
     [Statement.emptyStatement]
     (by simp [yieldFinder, scanStmts, scanStmt, Finder.empty, Finder.or])
     (by simp [yieldFinder, scanStmts, scanStmt, Finder.empty, Finder.or])
     rfl (Or.inr rfl)⟩

/-- C3 counterexample: a body consisting of one for-in loop, not a
generator, with deferred-function support enabled.  The analyzer reports
a for-in loop and deferred support is enabled — the claimed gate holds —
yet the early return fires (no suspend of any kind and not a generator),
so the for-in lowering pass is not invoked: the trace is empty and the
body comes back untouched. -/
theorem c3_counterexample :
    (yieldFinder forInBody).hasForIn = true ∧
    (TransformOptions.mk false true).deferredFunctions = true ∧
    transformBodyAux extMark (TransformOptions.mk false true) forInBody
      false = (forInBody, []) := by
  refine ⟨by simp [yieldFinder, forInBody, scanStmts, scanStmt, scanExpr,
    Finder.empty, Finder.or, Finder.withForIn], rfl, ?_⟩
  simp [transformBodyAux, forInBody, gtpStmts, gtpStmt, yieldFinder,
    scanStmts, scanStmt, scanExpr, Finder.empty, Finder.or, Finder.withForIn]

/-- C3 (amended): the for-in lowering pass is invoked on a body if and
only if the analyzer reports a for-in loop, at least one of
generator/deferred support is enabled, and the body actually reaches the
lowering point: the node is a generator or deferred support is enabled,
and the body has a direct suspend, is a generator, or has an
await-suspend (otherwise the driver returns early). -/
theorem c3_forin_gating (E : Externals) (opts : TransformOptions)
    (tree : List Statement) (isGenerator : Bool) :
    PassTag.forInPass ∈ (transformBodyAux E opts tree isGenerator).2 ↔
      ((yieldFinder tree).hasForIn = true ∧
       (opts.generators = true ∨ opts.deferredFunctions = true) ∧
       (isGenerator = true ∨ opts.deferredFunctions = true) ∧
       ((yieldFinder tree).hasYield = true ∨ isGenerator = true ∨
        (yieldFinder tree).hasAwait = true)) := by
  cases hg : opts.generators <;> cases hd : opts.deferredFunctions <;>
    cases isGenerator <;>
    cases hy : (yieldFinder tree).hasYield <;>
    cases ha : (yieldFinder tree).hasAwait <;>
    cases hfi : (yieldFinder tree).hasForIn <;>
    simp [transformBodyAux, hg, hd, hy, ha, hfi]

/-- C4 counterexample: a generator node with a populated location whose
body is replaced.  The output node is not identical to the input in
every field other than body and generator flag: the location field is
nulled rather than preserved. -/
theorem c4_counterexample :
    (transformFunction_ extMark (TransformOptions.mk true false)
        sampleGenFn).functionBody ≠ sampleGenFn.functionBody ∧
    (transformFunction_ extMark (TransformOptions.mk true false)
        sampleGenFn).location ≠ sampleGenFn.location := by
  constructor <;>
    simp [sampleGenFn, transformFunction_, transformBodyAux, gtpStmts,
      yieldFinder, scanStmts, Finder.empty, yetTransformStatements, extMark,
      FunctionNode.functionBody, FunctionNode.location]

/-- C4 (amended): when the body of a function declaration or function
expression is replaced, the driver returns a node that differs from the
input in exactly three fields — the body is the replacement, the
generator flag is false, and the location is nulled — while name,
parameter list, type annotation and annotations are preserved
verbatim. -/
theorem c4_replaced_fields (E : Externals) (opts : TransformOptions)
    (loc : Option Nat) (nm : Option String) (isGen : Bool)
    (ps : List String) (ty : Option String) (an : List String)
    (fb : List Statement)
    (h : (transformBodyAux E opts fb isGen).1 ≠ fb) :
    transformFunction_ E opts (.mk loc nm isGen ps ty an fb) =
      .mk none nm false ps ty an ((transformBodyAux E opts fb isGen).1) := by
  simp [transformFunction_, h]

/-- C4 witness: concrete instance of the amended claim. -/
theorem c4_replaced_fields_witness :
    (transformBodyAux extMark (TransformOptions.mk true false) [] true).1 ≠
      ([] : List Statement) ∧
    transformFunction_ extMark (TransformOptions.mk true false)
        (.mk (some 1) (some "f") true ["a"] (some "T") ["A"] []) =
      .mk none (some "f") false ["a"] (some "T") ["A"]
        ((transformBodyAux extMark (TransformOptions.mk true false) [] true).1) :=
  ⟨by simp [transformBodyAux, gtpStmts, yieldFinder, scanStmts, Finder.empty,
     yetTransformStatements, extMark],
   c4_replaced_fields extMark (TransformOptions.mk true false)
     (some 1) (some "f") true ["a"] (some "T") ["A"] []
     (by simp [transformBodyAux, gtpStmts, yieldFinder, scanStmts,
       Finder.empty, yetTransformStatements, extMark])⟩

/-- C8 counterexample: a non-generator function node whose body contains
no suspend expression anywhere (including in nested functions), with
deferred-function support disabled — yet the driver does not return the
original node, because the body contains a nested generator-declared
function that the inner recursion transforms. -/
theorem c8_counterexample :
    nestedGenFn.isGenerator = false ∧
    deepNoSuspendStmts nestedGenFn.functionBody = true ∧
    (TransformOptions.mk true false).deferredFunctions = false ∧
    transformFunction_ extMark (TransformOptions.mk true false) nestedGenFn ≠
      nestedGenFn := by
  refine ⟨rfl,
    by simp [nestedGenFn, FunctionNode.functionBody, deepNoSuspendStmts,
      deepNoSuspendStmt],
    rfl, ?_⟩
  simp [nestedGenFn, transformFunction_, transformBodyAux, gtpStmts, gtpStmt,
    yieldFinder, scanStmts, scanStmt, Finder.empty, Finder.or,
    yetTransformStatements, extMark]

/-- C8 (amended): the driver returns the exact original node for every
function node that is not a generator, whose body contains no suspend
expression (including in nested functions) and also no generator-declared
nested function at any depth, when deferred-function support is
disabled. -/
theorem c8_identity (E : Externals) (opts : TransformOptions)
    (fn : FunctionNode) (hg : fn.isGenerator = false)
    (hs : deepNoSuspendStmts fn.functionBody = true)
    (hng : deepNoGenStmts fn.functionBody = true)
    (hd : opts.deferredFunctions = false) :
    transformFunction_ E opts fn = fn := by
  cases fn with
  | mk loc nm g ps ty an fb =>
    simp only [FunctionNode.isGenerator] at hg
    simp only [FunctionNode.functionBody] at hs hng
    subst hg
    simp [transformFunction_, transformBodyAux, hd,
      gtpStmts_id E opts hd fb hng]

/-- C8 witness: concrete instance of the amended claim. -/
theorem c8_identity_witness :
    plainFn.isGenerator = false ∧
    deepNoSuspendStmts plainFn.functionBody = true ∧
    deepNoGenStmts plainFn.functionBody = true ∧
    (TransformOptions.mk true false).deferredFunctions = false ∧
    transformFunction_ extMark (TransformOptions.mk true false) plainFn =
      plainFn :=
  ⟨rfl,
   by simp [plainFn, FunctionNode.functionBody, deepNoSuspendStmts,
     deepNoSuspendStmt],
   by simp [plainFn, FunctionNode.functionBody, deepNoGenStmts,
     deepNoGenStmt],
   rfl,
   c8_identity extMark (TransformOptions.mk true false) plainFn rfl
     (by simp [plainFn, FunctionNode.functionBody, deepNoSuspendStmts,
       deepNoSuspendStmt])
     (by simp [plainFn, FunctionNode.functionBody, deepNoGenStmts,
       deepNoGenStmt])
     rfl⟩

/-- C10 counterexample: with deferred-function support disabled, a
get-accessor is not always returned identical regardless of its body
contents: a nested generator-declared function inside the body is
transformed by the inner recursion, so the accessor is reconstructed. -/
theorem c10_counterexample :
    (TransformOptions.mk true false).deferredFunctions = false ∧
    transformGetAccessor extMark (TransformOptions.mk true false) sampleGet ≠
      sampleGet := by
  refine ⟨rfl, ?_⟩
  simp [sampleGet, transformGetAccessor, transformBody_, transformBodyAux,
    gtpStmts, gtpStmt, transformFunction_, yieldFinder, scanStmts, scanStmt,
    Finder.empty, Finder.or, yetTransformStatements, extMark]

/-- C10 (amended): accessors are transformed with the generator flag
absent (false), so with deferred-function support disabled the body is
changed only by the inner recursion into nested functions, and the
accessor is reconstructed — identical when inner recursion changes
nothing — preserving location, static-ness, name, type annotation
(get) / parameter (set), and annotations. -/
theorem c10_accessor_inner_recursion (E : Externals)
    (opts : TransformOptions) (hd : opts.deferredFunctions = false) :
    (∀ g : GetAccessor,
      transformGetAccessor E opts g =
        GetAccessor.mk g.location g.isStatic g.name g.typeAnnot
          g.annotationList (gtpStmts E opts g.body)) ∧
    (∀ s : SetAccessor,
      transformSetAccessor E opts s =
        SetAccessor.mk s.location s.isStatic s.name s.parameter
          s.annotationList (gtpStmts E opts s.body)) := by
  constructor
  · intro g
    cases g with
    | mk l st nm ty an b =>
        by_cases hb : gtpStmts E opts b = b <;>
          simp [transformGetAccessor, transformBody_, transformBodyAux, hd, hb]
  · intro s
    cases s with
    | mk l st nm pm an b =>
        by_cases hb : gtpStmts E opts b = b <;>
          simp [transformSetAccessor, transformBody_, transformBodyAux, hd, hb]

/-- C10 witness: concrete instance of the amended claim. -/
theorem c10_accessor_inner_recursion_witness :
    (TransformOptions.mk false false).deferredFunctions = false ∧
    transformGetAccessor extMark (TransformOptions.mk false false)
        sampleGet =
      GetAccessor.mk sampleGet.location sampleGet.isStatic sampleGet.name
        sampleGet.typeAnnot sampleGet.annotationList
        (gtpStmts extMark (TransformOptions.mk false false) sampleGet.body) :=
  ⟨rfl,
   (c10_accessor_inner_recursion extMark (TransformOptions.mk false false)
     rfl).1 sampleGet⟩

end GeneratorTransform
